import Mathlib

/-!
Shallow embedding of `src/q1_2025_analysis.py` (a pandas/streamlit reporting
dashboard for Q1 2025 issue-tracking data) and proofs about its
data-transformation pipeline.

Modelling conventions:
- An issue record (one CSV row after loading) is a `Record` structure.
  Fields that can be missing/NaN/NaT in the dataframe are `Option` typed;
  `none` stands for the pandas missing value.
- Timestamps are epoch seconds (`Int`); `pd.to_datetime(..., errors := coerce)`
  turning an invalid value into `NaT` is modelled by the field being `none`.
- Fractional quantities (cycle time in days, story-point sums, percentages)
  are exact rationals `ℚ`; a pandas `NaN` result is modelled as `none` in
  `Option ℚ`.
- A pandas in-place column assignment `df[col] = ...` mutates the caller's
  dataframe, so every aggregator is embedded as
  `List Record → List Record × summary`: the first component is the state of
  the dataframe after the call.
-/

/-- ASCII lowercase of one character: embedding of Python's `str.lower()`
character-wise (the label/assignee/sprint texts this program handles are
ASCII). -/
def toLowerChar : Char → Char
  | 'A' => 'a' | 'B' => 'b' | 'C' => 'c' | 'D' => 'd' | 'E' => 'e' | 'F' => 'f'
  | 'G' => 'g' | 'H' => 'h' | 'I' => 'i' | 'J' => 'j' | 'K' => 'k' | 'L' => 'l'
  | 'M' => 'm' | 'N' => 'n' | 'O' => 'o' | 'P' => 'p' | 'Q' => 'q' | 'R' => 'r'
  | 'S' => 's' | 'T' => 't' | 'U' => 'u' | 'V' => 'v' | 'W' => 'w' | 'X' => 'x'
  | 'Y' => 'y' | 'Z' => 'z'
  | c => c

/-- Python `s.lower()`. -/
def lowerStr (s : String) : String :=
  String.mk (s.toList.map toLowerChar)

/-- Does `pat` match at the head of the character list? -/
def headMatch : List Char → List Char → Bool
  | [], _ => true
  | _ :: _, [] => false
  | p :: ps, c :: cs => (p == c) && headMatch ps cs

/-- Does the character list contain `pat` as a contiguous sublist?
Embeds Python's `pat in s` substring test. -/
def hasSubList (pat : List Char) : List Char → Bool
  | [] => pat.isEmpty
  | c :: cs => headMatch pat (c :: cs) || hasSubList pat cs

/-- Python `pat in s` on strings. -/
def strContains (s pat : String) : Bool :=
  hasSubList pat.toList s.toList

/-- Python `str(x)` applied to a possibly-missing cell: pandas `NaN` prints
as `"nan"` (this is exactly what `str(labels)` produces inside
`get_task_type` when the `Labels` cell is missing). -/
def pyStr : Option String → String
  | none => "nan"
  | some s => s

/-- One issue record: a row of the loaded dataframe.
Columns of `direct-ordering-squad-Q1-2025.csv` used by the code, plus the
derived `Cycle Time` and `Task Type` columns (absent until assigned, hence
`Option`). -/
structure Record where
  id : String
  assignee : Option String
  labels : Option String
  status : String
  priority : String
  estimate : Option ℚ
  cycleName : String
  created : Option Int
  completed : Option Int
  cycleTime : Option ℚ
  taskType : Option String
deriving DecidableEq, Repr

/-- `get_task_type` as defined inside `task_type_split_by_service`
(src/q1_2025_analysis.py lines 181-190): lowercase the label text and take
the first matching substring rule; default is Feature/Enhancement. -/
def get_task_type (labels : Option String) : String :=
  let labels_lower := lowerStr (pyStr labels)
  if strContains labels_lower "bug" || strContains labels_lower "confirmed-bug" then
    "Bug"
  else if strContains labels_lower "service-request" then
    "Service Request"
  else if strContains labels_lower "infra-related" then
    "Infrastructure"
  else
    "Feature/Enhancement"

/-- `get_task_type` as re-defined inside `task_distribution_by_type`
(src/q1_2025_analysis.py lines 235-244); the code duplicates the function
verbatim at this second call site. -/
def get_task_type_dist (labels : Option String) : String :=
  let labels_lower := lowerStr (pyStr labels)
  if strContains labels_lower "bug" || strContains labels_lower "confirmed-bug" then
    "Bug"
  else if strContains labels_lower "service-request" then
    "Service Request"
  else if strContains labels_lower "infra-related" then
    "Infrastructure"
  else
    "Feature/Enhancement"

/-- Derived `Cycle Time` column of `load_data` (lines 20-23): set only when
both `Created` and `Completed` parsed (the mask `~(isna | isna)`), as
`(Completed - Created).dt.total_seconds() / (24*60*60)` in fractional days;
otherwise the initialised `None` is left in place. -/
def cycleTime (created completed : Option Int) : Option ℚ :=
  match created, completed with
  | some c, some d => some (((d - c : ℤ) : ℚ) / (24 * 60 * 60))
  | _, _ => none

/-- Row-wise part of `load_data`: fill the `Cycle Time` column of a record. -/
def setCycleTime (r : Record) : Record :=
  { r with cycleTime := cycleTime r.created r.completed }

/-- What reading the CSV at the configured path can come to: the file is
absent (Python raises `FileNotFoundError`), the file exists but reading or
parsing it raises some other exception carrying a message (`PermissionError`,
`IsADirectoryError`, pandas `ParserError` or `EmptyDataError`, ...), or the
read succeeds with a list of rows. -/
inductive LoadSource where
  | missing
  | unreadable (err : String)
  | table (rows : List Record)

/-- `load_data` (lines 6-28). The `try` block wraps the read and the
column coercions; the single `except FileNotFoundError` clause shows an
`st.error` message and returns an empty dataframe. An exception of any other
type raised while reading an existing file is NOT caught and propagates to
the caller — modelled as `Except.error` carrying the exception text. On
success the rows get the derived `Cycle Time` column; the `List String`
component collects the streamlit messages emitted during loading. (The inner
per-column `try`/`except` at lines 14-18 only concerns date coercion, whose
failures `errors := coerce` already turns into missing cells, modelled by the
`Option` timestamp fields.) -/
def load_data : LoadSource → Except String (List Record × List String)
  | LoadSource.missing =>
      Except.ok ([], ["File not found: ./direct-ordering-squad-Q1-2025.csv"])
  | LoadSource.unreadable err => Except.error err
  | LoadSource.table rows => Except.ok (rows.map setCycleTime, [])

/-- `df.drop_duplicates(subset := ID, keep := first)` (line 32), with the
set of already-seen identifiers made explicit. -/
def dedupBy (seen : List String) : List Record → List Record
  | [] => []
  | r :: rs =>
    if r.id ∈ seen then dedupBy seen rs
    else r :: dedupBy (r.id :: seen) rs

/-- The deduplication step of `preprocess_data`. -/
def dropDuplicatesById (rs : List Record) : List Record :=
  dedupBy [] rs

/-- `df[Labels].str.contains(sub-task, case := False, na := False)`
(line 35): a missing label cell counts as no match (`na := False`);
otherwise a case-insensitive substring test for "sub-task". -/
def subTaskMatch : Option String → Bool
  | none => false
  | some s => strContains (lowerStr s) "sub-task"

/-- The sub-task filter step of `preprocess_data` (lines 34-35): keep the
records whose label text does not match. -/
def subTaskFilter (rs : List Record) : List Record :=
  rs.filter (fun r => !subTaskMatch r.labels)

/-- `preprocess_data` (lines 30-37): deduplicate by `ID` keeping the first
occurrence, then drop records carrying a sub-task label. -/
def preprocess_data (rs : List Record) : List Record :=
  subTaskFilter (dropDuplicatesById rs)

/-- The sprint rename table of `sprint_velocity_trend` (lines 41-44):
`df[Cycle Name].replace` with the dict mapping FEB-S-3 to MAR-S-1 and
FEB-S-4 to MAR-S-2. -/
def renameCycle (s : String) : String :=
  if s = "FEB-S-3" then "MAR-S-1"
  else if s = "FEB-S-4" then "MAR-S-2"
  else s

/-- The in-place column assignment `df[Cycle Name] = df[Cycle Name].replace ...`
acting on one record. -/
def applyRenameCycle (r : Record) : Record :=
  { r with cycleName := renameCycle r.cycleName }

/-- The fixed sprint order of `sprint_velocity_trend` (line 47). -/
def sprint_order : List String :=
  ["JAN-S-1", "JAN-S-2", "FEB-S-1", "FEB-S-2", "MAR-S-1", "MAR-S-2"]

/-- `sprint_velocity_trend` (lines 39-60). The column assignment on line 41
mutates the caller's dataframe, so the first component is the dataframe after
the call (cycle names remapped). The second component is the chart data:
`df[df[Status] == Done].groupby(Cycle Name).size().reindex(sprint_order, fill_value := 0)`,
i.e. for each sprint of the fixed order, the count of Done records in it. -/
def sprint_velocity_trend (rs : List Record) : List Record × List (String × Nat) :=
  let rs2 := rs.map applyRenameCycle
  (rs2, sprint_order.map (fun s =>
    (s, (rs2.filter (fun r => r.status == "Done" && r.cycleName == s)).length)))

/-- `pd.to_numeric(df[Estimate], errors := coerce).fillna(0)` acting on one
cell: a missing / non-numeric estimate becomes 0. -/
def fillEstimate : Option ℚ → ℚ
  | none => 0
  | some q => q

/-- The in-place `df[Estimate] = pd.to_numeric(...).fillna(0)` (line 64)
acting on one record. -/
def coerceEstimate (r : Record) : Record :=
  { r with estimate := some (fillEstimate r.estimate) }

/-- `bandwidth_efficiency` (lines 62-84). Line 64 overwrites the `Estimate`
column in place, so the first component is the mutated dataframe. The summary
is the pair (predicted, actual): predicted is the constant 12 person-weeks,
actual is the estimate sum divided by 5 story points per person-week. -/
def bandwidth_efficiency (rs : List Record) : List Record × (ℚ × ℚ) :=
  let rs2 := rs.map coerceEstimate
  (rs2, (12, (rs2.map (fun r => fillEstimate r.estimate)).sum / 5))

/-- The characters of the e-mail domain suffix removed by `clean_name`. -/
def domainChars : List Char := "@urbanpiper.com".toList

/-- Python `s.replace` removing every occurrence of the domain suffix,
scanning left to right without overlap. -/
def stripDomain : List Char → List Char
  | [] => []
  | c :: cs =>
    if headMatch domainChars (c :: cs) then stripDomain (cs.drop (domainChars.length - 1))
    else c :: stripDomain cs
termination_by l => l.length
decreasing_by
  · simp only [List.length_drop, List.length_cons]
    omega
  · simp only [List.length_cons]
    omega

/-- `clean_name` inside `bandwidth_efficiency_per_person` (lines 94-99):
lowercase, remove the e-mail domain suffix, strip surrounding whitespace. -/
def clean_name (name : String) : String :=
  (String.mk (stripDomain (lowerStr name).toList)).trim

/-- `fillna` with the empty string, used on the `Assignee` column (line 101). -/
def orEmpty : Option String → String
  | none => ""
  | some s => s

/-- The allow-list of people (line 91). -/
def allowed_people : List String := ["gagan", "ganesh", "akshay"]

/-- The per-person predicted-capacity table (lines 109-113); dict iteration
order is insertion order. -/
def available_weeks : List (String × ℚ) := [("ganesh", 4), ("gagan", 12), ("akshay", 12)]

/-- `bandwidth_efficiency_per_person` (lines 86-154). The function works on
`df.copy()`, so the caller's dataframe is returned unchanged as the first
component. Summary: for a cleaned assignee name, the actual efficiency is the
sum of the (coerced, zero-filled) estimates of that person's allow-listed
records divided by 5; the predicted efficiency is the first entry of
`available_weeks` whose key is a substring of the re-cleaned name, with
default 12 when none matches. -/
def bandwidth_efficiency_per_person (rs : List Record) :
    List Record × (String → ℚ) × (String → ℚ) :=
  let cleaned := rs.map (fun r => { r with assignee := some (clean_name (orEmpty r.assignee)) })
  let filtered := cleaned.filter (fun r =>
    allowed_people.any (fun person => strContains (orEmpty r.assignee) person))
  (rs,
   fun name =>
     ((filtered.filter (fun r => orEmpty r.assignee == name)).map
       (fun r => fillEstimate r.estimate)).sum / 5,
   fun name =>
     match available_weeks.find? (fun kv => strContains (clean_name name) kv.1) with
     | some kv => kv.2
     | none => 12)

/-- `task_completion_efficiency` (lines 156-162):
`df.groupby(Cycle Name)[Cycle Time].mean()`. The pandas mean skips missing
cycle times; a sprint whose records all lack a cycle time gets `NaN`,
modelled as `none`. No column is assigned, so the dataframe is unchanged. -/
def task_completion_efficiency (rs : List Record) : List Record × (String → Option ℚ) :=
  (rs, fun s =>
    let vs := (rs.filter (fun r => r.cycleName == s)).filterMap (fun r => r.cycleTime)
    if vs.isEmpty then none else some (vs.sum / vs.length))

/-- `priority_vs_completion` (lines 164-170):
`df[df[Status] == Done].groupby(Priority).size() / df.groupby(Priority).size() * 100`.
The two series align on the union of their indexes: a priority that occurs in
the frame but has no Done record is absent from the numerator, so pandas
produces `NaN` for it — modelled as `none`; a priority absent from the frame
is absent from the result — also `none` here. No mutation. -/
def priority_vs_completion (rs : List Record) : List Record × (String → Option ℚ) :=
  (rs, fun p =>
    let total := (rs.filter (fun r => r.priority == p)).length
    let don := (rs.filter (fun r => r.priority == p && r.status == "Done")).length
    if don = 0 then none
    else some ((don : ℚ) / (total : ℚ) * 100))

/-- The fixed service-name list of `task_type_split_by_service` (lines 174-178). -/
def services : List String :=
  ["api", "app", "atlas-web", "aurelia", "editor", "frodo", "luna", "meraki-sdk", "web",
   "payment-svc"]

/-- `df[Labels].str.contains(service, case := False, na := False)` (line 205). -/
def labelHasService : Option String → String → Bool
  | none, _ => false
  | some s, sv => strContains (lowerStr s) (lowerStr sv)

/-- The in-place `df[Task Type] = df[Labels].apply(get_task_type)` (line 192)
acting on one record, with the classifier of `task_type_split_by_service`. -/
def setTaskType (r : Record) : Record :=
  { r with taskType := some (get_task_type r.labels) }

/-- Same column assignment at the second call site (line 247), with the
classifier re-defined inside `task_distribution_by_type`. -/
def setTaskTypeDist (r : Record) : Record :=
  { r with taskType := some (get_task_type_dist r.labels) }

/-- The four Task Type categories. -/
def task_type_values : List String :=
  ["Bug", "Service Request", "Infrastructure", "Feature/Enhancement"]

/-- `value_counts()` of the `Task Type` column: count per observed category
(zero-count categories are not listed; ordering of the multiset is modelled
by the canonical category order). -/
def taskTypeCounts (sub : List Record) : List (String × Nat) :=
  (task_type_values.map (fun t =>
    (t, (sub.filter (fun r => r.taskType == some t)).length))).filter (fun p => p.2 != 0)

/-- `task_type_split_by_service` (lines 172-231). Line 192 assigns the
`Task Type` column in place, so the first component is the mutated dataframe.
For each service of the fixed list, the records whose labels contain the
service name are selected; an empty selection emits no chart (the inner
`value_counts` emptiness check is redundant since every record of a nonempty
selection has a task type). -/
def task_type_split_by_service (rs : List Record) :
    List Record × List (String × List (String × Nat)) :=
  let rs2 := rs.map setTaskType
  (rs2, services.filterMap (fun sv =>
    let sub := rs2.filter (fun r => labelHasService r.labels sv)
    if sub.isEmpty then none else some (sv, taskTypeCounts sub)))

/-- `task_distribution_by_type` (lines 233-269). Line 247 assigns the
`Task Type` column in place; the summary is the `value_counts` of the full
population. -/
def task_distribution_by_type (rs : List Record) : List Record × List (String × Nat) :=
  let rs2 := rs.map setTaskTypeDist
  (rs2, taskTypeCounts rs2)

/-- What `create_dashboard` renders: the streamlit notices shown and the
number of charts handed to `st.plotly_chart`. -/
structure Dashboard where
  notices : List String
  charts : Nat
deriving DecidableEq, Repr

/-- `create_dashboard` (lines 271-312). An exception propagating out of
`load_data` is not handled anywhere, so the dashboard crashes
(`Except.error`). When the loaded frame is empty (in particular after the
handled missing-file load) it shows the warning and renders nothing.
Otherwise it preprocesses and renders: the team pie, the task-type
distribution pie (which mutates the frame), the priority pie, the per-person
efficiency chart, and one pie per service with matching records. -/
def create_dashboard (src : LoadSource) : Except String Dashboard :=
  match load_data src with
  | Except.error e => Except.error e
  | Except.ok (df, msgs) =>
    if df.isEmpty then
      Except.ok
        { notices := msgs ++
            ["No data available to display. Please check the file path or data format."],
          charts := 0 }
    else
      let df2 := preprocess_data df
      let df3 := (task_distribution_by_type df2).1
      Except.ok
        { notices := msgs,
          charts := 4 + ((task_type_split_by_service df3).2).length }

/-! Concrete records used by the example-level statements below. -/

/-- A record with the given identifier, labels, status, priority, sprint and
estimate; the remaining cells are left missing. -/
def mkRec (i : String) (labels : Option String) (status priority cycleName : String)
    (estimate : Option ℚ) : Record :=
  { id := i, assignee := none, labels := labels, status := status, priority := priority,
    estimate := estimate, cycleName := cycleName, created := none, completed := none,
    cycleTime := none, taskType := none }

/-- Input on which the frozen reading of claim C3 fails: two records share
identifier LIN-1; the first occurrence carries a sub-task label, so cleaning
keeps no record of that identifier at all — in particular not the first
occurrence. -/
def c3cex : List Record :=
  [mkRec "LIN-1" (some "backend sub-task") "Done" "P1" "JAN-S-1" none,
   mkRec "LIN-1" (some "feature") "Done" "P1" "JAN-S-1" none]

/-- A record that all four mutating aggregators change: its sprint name is a
legacy label, its estimate cell is missing, and its Task Type column is not
yet set. -/
def c4rec : Record := mkRec "LIN-51" (some "feature") "Done" "P1" "FEB-S-3" none

/-- The record set of the sprint-velocity example of claim C5: three Done
records in JAN-S-1 and two Done records in the legacy sprint FEB-S-3. -/
def c5ex : List Record :=
  [mkRec "LIN-11" none "Done" "P1" "JAN-S-1" none,
   mkRec "LIN-12" none "Done" "P1" "JAN-S-1" none,
   mkRec "LIN-13" none "Done" "P1" "JAN-S-1" none,
   mkRec "LIN-14" none "Done" "P1" "FEB-S-3" none,
   mkRec "LIN-15" none "Done" "P1" "FEB-S-3" none]

/-- A record set with one P0 record that is not Done: the input on which the
frozen reading of claim C6 fails. -/
def c6cex : List Record := [mkRec "LIN-21" none "In Progress" "P0" "JAN-S-1" none]

/-- Four P1 records, three of them Done: the priority-completion example of
claim C6. -/
def c6wit : List Record :=
  [mkRec "LIN-31" none "Done" "P1" "JAN-S-1" none,
   mkRec "LIN-32" none "Done" "P1" "JAN-S-1" none,
   mkRec "LIN-33" none "Done" "P1" "JAN-S-1" none,
   mkRec "LIN-34" none "Todo" "P1" "JAN-S-1" none]

/-- A record set whose only P2 record is not Done, witnessing claim C10. -/
def c10wit : List Record := [mkRec "LIN-41" none "In Progress" "P2" "JAN-S-1" none]

/-- Exception text of a read failure on an existing input file — the
concrete input on which the frozen reading of claim C8 fails. -/
def c8err : String :=
  "PermissionError: Permission denied: ./direct-ordering-squad-Q1-2025.csv"

/-! Theorems -/

/-- Claim C1: every record is assigned exactly one Task Type out of
Bug, Service Request, Infrastructure and Feature/Enhancement, by the
first-matching case-insensitive substring rule over the full label text:
contains "bug" or "confirmed-bug" gives Bug; else "service-request" gives
Service Request; else "infra-related" gives Infrastructure; else the
fallback Feature/Enhancement, which is never an error. -/
theorem C1_classifier_first_match (labels : Option String) :
    (get_task_type labels = "Bug" ↔
      (strContains (lowerStr (pyStr labels)) "bug"
        || strContains (lowerStr (pyStr labels)) "confirmed-bug") = true) ∧
    (get_task_type labels = "Service Request" ↔
      (strContains (lowerStr (pyStr labels)) "bug"
        || strContains (lowerStr (pyStr labels)) "confirmed-bug") = false ∧
      strContains (lowerStr (pyStr labels)) "service-request" = true) ∧
    (get_task_type labels = "Infrastructure" ↔
      (strContains (lowerStr (pyStr labels)) "bug"
        || strContains (lowerStr (pyStr labels)) "confirmed-bug") = false ∧
      strContains (lowerStr (pyStr labels)) "service-request" = false ∧
      strContains (lowerStr (pyStr labels)) "infra-related" = true) ∧
    (get_task_type labels = "Feature/Enhancement" ↔
      (strContains (lowerStr (pyStr labels)) "bug"
        || strContains (lowerStr (pyStr labels)) "confirmed-bug") = false ∧
      strContains (lowerStr (pyStr labels)) "service-request" = false ∧
      strContains (lowerStr (pyStr labels)) "infra-related" = false) ∧
    get_task_type labels ∈ task_type_values := by
  unfold get_task_type task_type_values
  cases hb : strContains (lowerStr (pyStr labels)) "bug" <;>
    cases hcb : strContains (lowerStr (pyStr labels)) "confirmed-bug" <;>
      cases hsr : strContains (lowerStr (pyStr labels)) "service-request" <;>
        cases hir : strContains (lowerStr (pyStr labels)) "infra-related" <;>
          simp_all

/-- Claim C2: cycle time is present iff both the created and completed
timestamps are present and valid, in which case it is the elapsed seconds
divided by 86400 (fractional days); otherwise it is absent, never zero.
The concrete instance: created 2025-01-01T00:00:00Z (epoch 1735689600) and
completed 2025-01-03T12:00:00Z (epoch 1735905600) give exactly 5/2 days. -/
theorem C2_cycle_time :
    (∀ c d : Option Int, (cycleTime c d).isSome = (c.isSome && d.isSome)) ∧
    (∀ a b : Int, cycleTime (some a) (some b) = some (((b - a : ℤ) : ℚ) / 86400)) ∧
    (∀ r : Record, ((setCycleTime r).cycleTime).isSome =
      (r.created.isSome && r.completed.isSome)) ∧
    cycleTime (some 1735689600) (some 1735905600) = some (5 / 2) := by
  refine ⟨fun c d => ?_, fun a b => ?_, fun r => ?_, ?_⟩
  · cases c <;> cases d <;> rfl
  · norm_num [cycleTime]
  · show (cycleTime r.created r.completed).isSome = _
    cases hc : r.created <;> cases hd : r.completed <;> rfl
  · norm_num [cycleTime]

/-- Claim C9: the classifier is a deterministic, side-effect-free function,
and the two call sites — defined separately inside
`task_type_split_by_service` and `task_distribution_by_type` — compute
extensionally equal classifications, so both aggregators assign the same
Task Type to every record. -/
theorem C9_classifiers_agree (rs : List Record) (labels : Option String) :
    get_task_type labels = get_task_type_dist labels ∧
    (task_distribution_by_type rs).1 = (task_type_split_by_service rs).1 :=
  ⟨rfl, rfl⟩

/-- Restricted to one identifier, deduplication yields the first matching
record of the input (nothing if the identifier was already seen). -/
lemma dedupBy_filter (x : String) (rs : List Record) :
    ∀ seen : List String, (dedupBy seen rs).filter (fun r => r.id == x) =
      if x ∈ seen then [] else (rs.filter (fun r => r.id == x)).take 1 := by
  induction rs with
  | nil => intro seen; by_cases h : x ∈ seen <;> simp [dedupBy, h]
  | cons r rs ih =>
    intro seen
    rw [dedupBy]
    by_cases hr : r.id ∈ seen
    · rw [if_pos hr, ih seen]
      by_cases hx : x ∈ seen
      · simp [hx]
      · have hne : (r.id == x) = false :=
          beq_eq_false_iff_ne.mpr (fun he => hx (he ▸ hr))
        simp [hx, List.filter_cons, hne]
    · rw [if_neg hr]
      by_cases hrx : r.id = x
      · have hxs : x ∉ seen := fun hx => hr (hrx ▸ hx)
        have hmem : x ∈ r.id :: seen := by simp [hrx]
        have hb : (r.id == x) = true := by simp [hrx]
        rw [List.filter_cons, hb, if_pos rfl, ih (r.id :: seen), if_pos hmem,
          if_neg hxs, List.filter_cons, hb, if_pos rfl]
        rfl
      · have hb : (r.id == x) = false := beq_eq_false_iff_ne.mpr hrx
        rw [List.filter_cons, hb]
        simp only [Bool.false_eq_true, if_false]
        rw [ih (r.id :: seen), List.filter_cons, hb]
        simp only [Bool.false_eq_true, if_false]
        by_cases hx : x ∈ seen
        · rw [if_pos (List.mem_cons_of_mem _ hx), if_pos hx]
        · have hnm : x ∉ r.id :: seen := by
            intro h
            rcases List.mem_cons.mp h with h | h
            · exact hrx h.symm
            · exact hx h
          rw [if_neg hnm, if_neg hx]

/-- Deduplication produces pairwise distinct identifiers, none of them
already seen. -/
lemma dedupBy_nodup (rs : List Record) :
    ∀ seen : List String, ((dedupBy seen rs).map (fun r => r.id)).Nodup ∧
      ∀ r ∈ dedupBy seen rs, r.id ∉ seen := by
  induction rs with
  | nil => intro seen; simp [dedupBy]
  | cons r rs ih =>
    intro seen
    by_cases hr : r.id ∈ seen
    · rw [dedupBy, if_pos hr]; exact ih seen
    · rw [dedupBy, if_neg hr]
      obtain ⟨hnd, hout⟩ := ih (r.id :: seen)
      refine ⟨?_, ?_⟩
      · simp only [List.map_cons, List.nodup_cons]
        refine ⟨?_, hnd⟩
        intro hmem
        obtain ⟨r', hr', he⟩ := List.mem_map.mp hmem
        exact (hout r' hr') (he ▸ List.mem_cons_self _ _)
      · intro r' hr'
        rcases List.mem_cons.mp hr' with h | h
        · exact h ▸ hr
        · exact fun hs => (hout r' h) (List.mem_cons_of_mem _ hs)

/-- Claim C3, counterexample to "for each set of records sharing an
identifier exactly the first occurrence is kept": the identifier LIN-1
occurs (twice) in the input, yet cleaning keeps no record whatsoever,
because the first occurrence is removed by the sub-task filter after the
duplicate was dropped. -/
theorem C3_counterexample :
    c3cex.filter (fun r => r.id == "LIN-1") ≠ [] ∧
    preprocess_data c3cex = [] := by
  constructor
  · decide
  · decide

/-- Claim C3 as amended: after cleaning the identifiers are pairwise
distinct, and the deduplication stage keeps exactly the first occurrence of
each identifier in original order, dropping all subsequent duplicates; the
kept first occurrence survives into the final output only if it also passes
the sub-task filter (so cleaning as a whole keeps either the first
occurrence or nothing for each identifier). -/
theorem C3_dedup_amended (rs : List Record) (x : String) :
    ((preprocess_data rs).map (fun r => r.id)).Nodup ∧
    (dropDuplicatesById rs).filter (fun r => r.id == x) =
      (rs.filter (fun r => r.id == x)).take 1 ∧
    (preprocess_data rs).filter (fun r => r.id == x) =
      ((rs.filter (fun r => r.id == x)).take 1).filter (fun r => !subTaskMatch r.labels) := by
  have hfilter : (dropDuplicatesById rs).filter (fun r => r.id == x) =
      (rs.filter (fun r => r.id == x)).take 1 := by
    simpa [dropDuplicatesById] using dedupBy_filter x rs []
  refine ⟨?_, hfilter, ?_⟩
  · have hnd : ((dropDuplicatesById rs).map (fun r => r.id)).Nodup :=
      (dedupBy_nodup rs []).1
    have hsub : ((preprocess_data rs).map (fun r => r.id)).Sublist
        ((dropDuplicatesById rs).map (fun r => r.id)) :=
      List.Sublist.map _ (List.filter_sublist _)
    exact List.Nodup.sublist hsub hnd
  · show ((dropDuplicatesById rs).filter (fun r => !subTaskMatch r.labels)).filter
        (fun r => r.id == x) = _
    rw [List.filter_comm, hfilter]

/-- Counting Done records in a sprint after the in-place rename is the same
as counting the input records whose renamed sprint is that sprint. -/
lemma velocity_count (rs : List Record) (s : String) :
    ((rs.map applyRenameCycle).filter
      (fun r => r.status == "Done" && r.cycleName == s)).length =
    (rs.filter (fun r => r.status == "Done" && renameCycle r.cycleName == s)).length := by
  rw [List.filter_map, List.length_map]
  rfl

/-- Claim C4, counterexample to "running any aggregator leaves the input
records unchanged": on a one-record dataframe, sprint velocity rewrites the
legacy sprint name, team bandwidth efficiency overwrites the missing
estimate with 0, and both task-type aggregators write the Task Type column
into the caller's records. -/
theorem C4_counterexample :
    (sprint_velocity_trend [c4rec]).1 ≠ [c4rec] ∧
    (bandwidth_efficiency [c4rec]).1 ≠ [c4rec] ∧
    (task_distribution_by_type [c4rec]).1 ≠ [c4rec] ∧
    (task_type_split_by_service [c4rec]).1 ≠ [c4rec] := by
  refine ⟨by decide, by decide, by decide, by decide⟩

/-- Claim C4 as amended: the per-person efficiency, cycle-time mean and
priority completion rate aggregators return their labeled numeric summaries
with the input records unchanged; but sprint velocity remaps the legacy
sprint labels inside the input records, team bandwidth efficiency overwrites
each record's estimate with its zero-filled numeric coercion, and the
type-distribution and per-service-split aggregators write the derived Task
Type field into the input records. -/
theorem C4_frame_amended (rs : List Record) :
    (bandwidth_efficiency_per_person rs).1 = rs ∧
    (task_completion_efficiency rs).1 = rs ∧
    (priority_vs_completion rs).1 = rs ∧
    (sprint_velocity_trend rs).1 = rs.map applyRenameCycle ∧
    (bandwidth_efficiency rs).1 = rs.map coerceEstimate ∧
    (task_distribution_by_type rs).1 = rs.map setTaskTypeDist ∧
    (task_type_split_by_service rs).1 = rs.map setTaskType :=
  ⟨rfl, rfl, rfl, rfl, rfl, rfl, rfl⟩

/-- Claim C5: sprint velocity counts Done records per sprint after remapping
the legacy labels FEB-S-3 and FEB-S-4 to MAR-S-1 and MAR-S-2, reindexed onto
the fixed sprint order with missing sprints at zero; on the example input
(3 Done in JAN-S-1, 2 Done in FEB-S-3) it yields JAN-S-1=3, JAN-S-2=0,
FEB-S-1=0, FEB-S-2=0, MAR-S-1=2, MAR-S-2=0. -/
theorem C5_sprint_velocity (rs : List Record) :
    (sprint_velocity_trend rs).2 =
      sprint_order.map (fun s =>
        (s, (rs.filter
          (fun r => r.status == "Done" && renameCycle r.cycleName == s)).length)) ∧
    (sprint_velocity_trend c5ex).2 =
      [("JAN-S-1", 3), ("JAN-S-2", 0), ("FEB-S-1", 0), ("FEB-S-2", 0),
       ("MAR-S-1", 2), ("MAR-S-2", 0)] := by
  constructor
  · have h : ∀ s ∈ sprint_order,
        (s, ((rs.map applyRenameCycle).filter
          (fun r => r.status == "Done" && r.cycleName == s)).length) =
        (s, (rs.filter
          (fun r => r.status == "Done" && renameCycle r.cycleName == s)).length) := by
      intro s _
      exact congrArg (fun n => (s, n)) (velocity_count rs s)
    exact List.map_congr_left h
  · decide

/-- Claim C6, counterexample to "for every priority value occurring in the
record set the completion rate equals done/total times 100": the priority P0
occurs (one record, not Done), so the claim demands the value
0 / 1 * 100 = 0, but the code produces a missing value for P0 (the Done
count series has no P0 index, and pandas alignment yields NaN). -/
theorem C6_counterexample :
    (c6cex.filter (fun r => r.priority == "P0")).length = 1 ∧
    (priority_vs_completion c6cex).2 "P0" = none ∧
    (priority_vs_completion c6cex).2 "P0" ≠ some (0 / 1 * 100) := by
  refine ⟨by decide, by decide, by decide⟩

/-- Claim C6 as amended: for every priority that has at least one Done
record, the completion rate is exactly (count of Done records with that
priority) divided by (count of all records with that priority) times 100,
in exact rational arithmetic. -/
theorem C6_rate_amended (rs : List Record) (p : String)
    (h : 0 < (rs.filter (fun r => r.priority == p && r.status == "Done")).length) :
    (priority_vs_completion rs).2 p =
      some (((rs.filter (fun r => r.priority == p && r.status == "Done")).length : ℚ) /
        ((rs.filter (fun r => r.priority == p)).length : ℚ) * 100) := by
  show (if (rs.filter (fun r => r.priority == p && r.status == "Done")).length = 0
      then (none : Option ℚ)
      else some (((rs.filter (fun r => r.priority == p && r.status == "Done")).length : ℚ) /
        ((rs.filter (fun r => r.priority == p)).length : ℚ) * 100)) = _
  rw [if_neg (Nat.pos_iff_ne_zero.mp h)]

/-- Witness for the amended claim C6, on the example of the spec: priority
P1 with 4 records of which 3 are Done gets completion rate exactly 75. -/
theorem C6_rate_witness :
    0 < (c6wit.filter (fun r => r.priority == "P1" && r.status == "Done")).length ∧
    (priority_vs_completion c6wit).2 "P1" = some 75 := by
  refine ⟨by decide, ?_⟩
  rw [C6_rate_amended c6wit "P1" (by decide)]
  have h1 : (c6wit.filter (fun r => r.priority == "P1" && r.status == "Done")).length = 3 := by
    decide
  have h2 : (c6wit.filter (fun r => r.priority == "P1")).length = 4 := by decide
  rw [h1, h2]
  norm_num

/-- Claim C7: the sub-task filter stage of cleaning drops exactly the
records whose label text contains a case-insensitive "sub-task" substring; a
record with a missing label cell does not match and is kept; and cleaning is
the deduplication stage followed by this filter. -/
theorem C7_subtask_filter (rs : List Record) (r : Record) :
    (r ∈ subTaskFilter rs ↔ r ∈ rs ∧ subTaskMatch r.labels = false) ∧
    subTaskMatch none = false ∧
    subTaskMatch (some "Platform SUB-TASK item") = true ∧
    subTaskMatch (some "feature api") = false ∧
    preprocess_data rs = subTaskFilter (dropDuplicatesById rs) := by
  refine ⟨?_, rfl, by decide, by decide, rfl⟩
  simp [subTaskFilter, List.mem_filter]

/-- Claim C8, counterexample to "if the input source file cannot be located
or read, the loader returns an empty record set and the dashboard renders a
warning and no charts rather than crashing": on an input file that exists
but cannot be read (here a permission error), the single
`except FileNotFoundError` clause does not apply, the exception propagates
out of the loader uncaught, and the dashboard crashes instead of rendering
the empty-state notice. -/
theorem C8_counterexample :
    load_data (LoadSource.unreadable c8err) = Except.error c8err ∧
    create_dashboard (LoadSource.unreadable c8err) = Except.error c8err ∧
    create_dashboard (LoadSource.unreadable c8err) ≠
      Except.ok
        { notices :=
            ["No data available to display. Please check the file path or data format."],
          charts := 0 } :=
  ⟨rfl, rfl, fun h => Except.noConfusion h⟩

/-- Claim C8 as amended: only the file-not-found case is handled — there the
loader shows the error, returns an empty record set, and the dashboard
renders the empty-state warning and zero charts instead of crashing; but any
other exception while reading an existing file (unreadable or unparseable
input) propagates uncaught out of the loader and crashes the dashboard. -/
theorem C8_error_paths_amended :
    load_data LoadSource.missing =
      Except.ok ([], ["File not found: ./direct-ordering-squad-Q1-2025.csv"]) ∧
    create_dashboard LoadSource.missing =
      Except.ok
        { notices := ["File not found: ./direct-ordering-squad-Q1-2025.csv",
            "No data available to display. Please check the file path or data format."],
          charts := 0 } ∧
    (∀ e : String, load_data (LoadSource.unreadable e) = Except.error e) ∧
    (∀ e : String, create_dashboard (LoadSource.unreadable e) = Except.error e) :=
  ⟨rfl, rfl, fun _ => rfl, fun _ => rfl⟩

/-- Claim C10: a priority that occurs in the record set but has no Done
record gets a missing (NaN) completion rate, not 0: the Done-count series
lacks that index, so the pandas alignment of the two series produces NaN. -/
theorem C10_zero_done_absent (rs : List Record) (p : String)
    (_h1 : 0 < (rs.filter (fun r => r.priority == p)).length)
    (h2 : (rs.filter (fun r => r.priority == p && r.status == "Done")).length = 0) :
    (priority_vs_completion rs).2 p = none := by
  show (if (rs.filter (fun r => r.priority == p && r.status == "Done")).length = 0
      then (none : Option ℚ)
      else some (((rs.filter (fun r => r.priority == p && r.status == "Done")).length : ℚ) /
        ((rs.filter (fun r => r.priority == p)).length : ℚ) * 100)) = none
  rw [if_pos h2]

/-- Witness for claim C10: a record set whose single P2 record is In
Progress has a present priority P2 with zero Done records, and the
completion-rate output for P2 is the missing value. -/
theorem C10_witness :
    0 < (c10wit.filter (fun r => r.priority == "P2")).length ∧
    (priority_vs_completion c10wit).2 "P2" = none :=
  ⟨by decide, C10_zero_done_absent c10wit "P2" (by decide) (by decide)⟩
